import Mathlib

/-!
Verification development for the Hong Kong elderly-equipment analytics pipeline
(`data_cleaner.py`, `analyst.py`, `forecaster.py`, `config.py`).

Numeric columns are embedded as `ℚ`; a pandas-missing value (NaN) is `Option.none`.
The equipment-demand and pandemic-scenario stages of `forecaster.py` are embedded
with IEEE-754 double-precision semantics (a float is a pair `(m, e) : ℤ × ℤ`
standing for `m * 2 ^ e`, with round-to-nearest, ties-to-even applied after each
arithmetic operation), because their claims hinge on `int()` truncation of float
products.  Exceptions raised by the Python code are `Except.error ()`.
-/

/-- Truncation toward zero, the behaviour of Python `int()` on a number. -/
def pyTrunc (q : ℚ) : ℤ := if 0 ≤ q then ⌊q⌋ else -⌊-q⌋

/-- The pandas `clip(0, 100)` operation. -/
def clip0100 (q : ℚ) : ℚ := min 100 (max 0 q)

/-- Minimum of a dataframe column, as used by `.min()` on an 18-row district
table; the empty-column value is irrelevant to every use site. -/
def minCol : List ℚ → ℚ
  | [] => 0
  | x :: xs => xs.foldl min x

/-- Maximum of a dataframe column, mirroring `.max()`. -/
def maxCol : List ℚ → ℚ
  | [] => 0
  | x :: xs => xs.foldl max x

/-- Ascending sort of a column of rationals. -/
def sortQ (l : List ℚ) : List ℚ := List.insertionSort (· ≤ ·) l

/-- Linear-interpolation quantile of an already sorted nonempty list, the scheme
used by pandas `quantile`, `median` and `qcut`. -/
def quantileSorted (s : List ℚ) (q : ℚ) : ℚ :=
  let pos : ℚ := q * ((s.length : ℚ) - 1)
  let i : ℕ := (⌊pos⌋).toNat
  let a := s.getD i 0
  let b := s.getD (min (i + 1) (s.length - 1)) 0
  a + (b - a) * (pos - ⌊pos⌋)

/-- The pandas `median()` of a column: missing values are skipped and the median
of an empty set of values is itself missing (NaN). -/
def medianOpt (l : List ℚ) : Option ℚ :=
  if l.isEmpty then none else some (quantileSorted (sortQ l) (1 / 2))

/-- The pandas `fillna` on a single cell: keep a present value, otherwise
substitute the (possibly itself missing) fallback. -/
def fillOpt (x fallback : Option ℚ) : Option ℚ :=
  match x with
  | some v => some v
  | none => fallback

/-- The pandas `merge(..., on=key, how=left)`: every left row is kept; a left row
is emitted once per matching right row (so duplicate right keys duplicate it),
and once with a missing payload when no right row matches. -/
def mergeLeft {α β γ : Type} (l : List α) (key : α → String)
    (r : List (String × β)) (mk : α → Option β → γ) : List γ :=
  l.flatMap (fun a =>
    let ms := r.filter (fun p => p.1 == key a)
    if ms.isEmpty then [mk a none] else ms.map (fun p => mk a (some p.2)))

/-- Dictionary lookup with a default, mirroring Python `dict.get(k, dflt)`. -/
def lookupD (l : List (String × ℚ)) (k : String) (dflt : ℚ) : ℚ :=
  ((l.find? (fun p => p.1 == k)).map (·.2)).getD dflt

/-! ## `config.py` -/

/-- HK_DISTRICTS from `config.py`: the fixed closed set of 18 district names. -/
def hkDistricts : List String :=
  ["Central and Western", "Wan Chai", "Eastern", "Southern",
   "Yau Tsim Mong", "Sham Shui Po", "Kowloon City", "Wong Tai Sin",
   "Kwun Tong", "Kwai Tsing", "Tsuen Wan", "Tuen Mun",
   "Yuen Long", "North", "Tai Po", "Sha Tin", "Sai Kung", "Islands"]

/-- FORECAST_YEARS from `config.py`. -/
def forecastYearsList : List ℤ := [2025, 2026, 2027, 2028, 2029, 2030]

/-! ## `data_cleaner.py` -/

/-- One row of the cleaned `elderly_population` table: the six yearly columns
`elderly_2019` … `elderly_2024` plus the derived `growth_2019_2024` column. -/
structure ElderlyRow where
  district : String
  e2019 : ℚ
  e2020 : ℚ
  e2021 : ℚ
  e2022 : ℚ
  e2023 : ℚ
  e2024 : ℚ
  growth : ℚ

/-- Builds an `ElderlyRow` with the growth column `((p2024 / p2019) - 1) * 100`
exactly as `clean_population` computes it for each district. -/
def mkER (d : String) (a b c e f g : ℚ) : ElderlyRow :=
  ⟨d, a, b, c, e, f, g, (g / a - 1) * 100⟩

/-- The hardcoded 18-district elderly time series that `clean_population`
unconditionally installs (manually extracted from Table 110-06811), with its
growth column. -/
def elderlyBase : List ElderlyRow :=
  [mkER "Central and Western" 42000 43200 43600 44200 46400 48600,
   mkER "Wan Chai" 30900 31900 34100 34900 36900 37800,
   mkER "Eastern" 98700 101400 120000 125300 132900 137600,
   mkER "Southern" 44500 47100 52400 54700 57400 60900,
   mkER "Yau Tsim Mong" 52300 55000 52400 54300 58800 57700,
   mkER "Sham Shui Po" 70200 75300 83600 88000 93200 94800,
   mkER "Kowloon City" 70000 74400 77500 80700 87100 90200,
   mkER "Wong Tai Sin" 79000 81400 90200 93600 98900 105100,
   mkER "Kwun Tong" 126900 129400 143800 148800 156100 159600,
   mkER "Kwai Tsing" 90500 92900 103800 108700 116800 120000,
   mkER "Tsuen Wan" 50200 52600 54900 58100 63700 65800,
   mkER "Tuen Mun" 81700 85700 93400 100000 111600 118000,
   mkER "Yuen Long" 102400 108200 96200 103700 116100 125100,
   mkER "North" 51400 53500 52900 60800 66500 71700,
   mkER "Tai Po" 49600 53000 55600 60600 65700 74500,
   mkER "Sha Tin" 119300 124200 135600 143900 156200 161200,
   mkER "Sai Kung" 76900 81300 75400 81500 87400 93900,
   mkER "Islands" 29400 30600 26300 28000 29700 33400]

/-- The hardcoded `total_population_by_district` table (thousands) used by
`create_master_district` to derive `Age_65_plus` when age proportions are
unavailable. -/
def totalPopulationByDistrict : List (String × ℚ) :=
  [("Central and Western", 2294/10), ("Wan Chai", 162), ("Eastern", 5144/10),
   ("Southern", 2547/10), ("Yau Tsim Mong", 2997/10), ("Sham Shui Po", 4323/10),
   ("Kowloon City", 4125/10), ("Wong Tai Sin", 4067/10), ("Kwun Tong", 6624/10),
   ("Kwai Tsing", 4916/10), ("Tsuen Wan", 3062/10), ("Tuen Mun", 531),
   ("Yuen Long", 6711/10), ("North", 3384/10), ("Tai Po", 3279/10),
   ("Sha Tin", 6989/10), ("Sai Kung", 4982/10), ("Islands", 1953/10)]

/-- A master-table row after the merge phase of `create_master_district` but
before the default fills and score computations of its lines 359-399: the three
optional indicator columns may still hold missing values. -/
structure PreRow where
  district : String
  elderly2024 : ℚ
  growth : ℚ
  incomeAll : Option ℚ
  inactiveRatio : Option ℚ
  age65 : Option ℚ

/-- A finished master-table row: filled indicators, the three component scores
and the composite `demand_potential`. -/
structure MasterRow where
  district : String
  elderly2024 : ℚ
  growth : ℚ
  incomeAll : ℚ
  inactiveRatio : ℚ
  age65 : ℚ
  incomeScore : ℚ
  elderlyScore : ℚ
  inactiveScore : ℚ
  demandPotential : ℚ

/-- The `fillna(30000)` column of `Income_all`. -/
def filledIncome (r : PreRow) : ℚ := r.incomeAll.getD 30000

/-- The `fillna(0.35)` column of `inactive_ratio`. -/
def filledInactive (r : PreRow) : ℚ := r.inactiveRatio.getD (35 / 100)

/-- The `fillna(22.3)` column of `Age_65_plus`. -/
def filledAge65 (r : PreRow) : ℚ := r.age65.getD (223 / 10)

/-- Lines 359-399 of `create_master_district` for one row: fill the indicator
defaults, min-max normalise each indicator over the whole cohort (with the
neutral 0.5 when the guard `max > min` fails), combine with weights 0.5 / 0.3 /
0.2, scale to 0-100 and clip. -/
def scoreRow (cohort : List PreRow) (r : PreRow) : MasterRow :=
  let imin := minCol (cohort.map filledIncome)
  let imax := maxCol (cohort.map filledIncome)
  let emin := minCol (cohort.map PreRow.elderly2024)
  let emax := maxCol (cohort.map PreRow.elderly2024)
  let nmin := minCol (cohort.map filledInactive)
  let nmax := maxCol (cohort.map filledInactive)
  let iSc := if imin < imax then 1 - (filledIncome r - imin) / (imax - imin) else 1 / 2
  let eSc := if emin < emax then (r.elderly2024 - emin) / (emax - emin) else 1 / 2
  let nSc := if nmin < nmax then (filledInactive r - nmin) / (nmax - nmin) else 1 / 2
  ⟨r.district, r.elderly2024, r.growth, filledIncome r, filledInactive r, filledAge65 r,
   iSc, eSc, nSc, clip0100 ((eSc * (1 / 2) + iSc * (3 / 10) + nSc * (1 / 5)) * 100)⟩

/-- Descending-by-`demand_potential` comparison for the final
`sort_values(ascending=False)`. -/
def masterGe (a b : MasterRow) : Prop := b.demandPotential ≤ a.demandPotential

instance : DecidableRel masterGe :=
  fun a b => inferInstanceAs (Decidable (b.demandPotential ≤ a.demandPotential))

/-- The scoring phase of `create_master_district`: score every row against the
cohort, then sort by `demand_potential` descending. -/
def scoreMaster (rows : List PreRow) : List MasterRow :=
  List.insertionSort masterGe (rows.map (scoreRow rows))

/-- The base of the master table: the `District`, `elderly_2024` and
`growth_2019_2024` columns of the elderly table, with the optional indicator
columns still absent. -/
def masterM1 (base : List ElderlyRow) : List PreRow :=
  base.map (fun r => ⟨r.district, r.e2024, r.growth, none, none, none⟩)

/-- The income step of `create_master_district`: left-merge the `income_2024`
table when present, else install the constant placeholder column 30000. -/
def masterM2 (base : List ElderlyRow) (incomeTab : Option (List (String × ℚ))) :
    List PreRow :=
  match incomeTab with
  | some inc => mergeLeft (masterM1 base) (·.district) inc
      (fun a o => { a with incomeAll := o })
  | none => (masterM1 base).map (fun a => { a with incomeAll := some 30000 })

/-- The households step: left-merge `inactive_ratio` when the stored table has
that column; when the table is present without it nothing is merged (the later
column fill will raise); when no households table exists install the placeholder
`elderly_2024 / elderly_2024.max() * 0.5`. -/
def masterM3 (base : List ElderlyRow) (incomeTab : Option (List (String × ℚ)))
    (householdsTab : Option (Bool × List (String × Option ℚ))) : List PreRow :=
  match householdsTab with
  | some (true, rows) =>
    mergeLeft (masterM2 base incomeTab) (·.district) rows
      (fun a o => { a with inactiveRatio := o.bind id })
  | some (false, _) => masterM2 base incomeTab
  | none =>
    (masterM2 base incomeTab).map (fun a =>
      let v := a.elderly2024 / maxCol ((masterM1 base).map PreRow.elderly2024) * (1 / 2)
      { a with inactiveRatio := some v })

/-- The age-proportion step: left-merge `Age_65_plus` when present, else derive
it from the elderly count and the hardcoded total-population table. -/
def masterM4 (base : List ElderlyRow) (incomeTab : Option (List (String × ℚ)))
    (householdsTab : Option (Bool × List (String × Option ℚ)))
    (ageTab : Option (List (String × Option ℚ))) : List PreRow :=
  match ageTab with
  | some rows =>
    mergeLeft (masterM3 base incomeTab householdsTab) (·.district) rows
      (fun a o => { a with age65 := o.bind id })
  | none =>
    (masterM3 base incomeTab householdsTab).map (fun a =>
      let v := a.elderly2024 / (lookupD totalPopulationByDistrict a.district 1 * 1000) * 100
      { a with age65 := some v })

/-- The whole of `create_master_district` as a function of the relevant entries
of the `cleaned` dictionary.  `none` for the elderly table triggers the fatal
branch (the method returns without a master table, `Except.ok none`).  A
households table whose `Bool` flag is `false` models `households_2024` being
present without an `inactive_ratio` column, in which case line 361
(`master['inactive_ratio'].fillna`) raises `KeyError` (`Except.error ()`). -/
def createMaster (elderlyTab : Option (List ElderlyRow))
    (incomeTab : Option (List (String × ℚ)))
    (householdsTab : Option (Bool × List (String × Option ℚ)))
    (ageTab : Option (List (String × Option ℚ))) :
    Except Unit (Option (List MasterRow)) :=
  match elderlyTab with
  | none => .ok none
  | some base =>
    match householdsTab with
    | some (false, _) => .error ()
    | _ => .ok (some (scoreMaster (masterM4 base incomeTab householdsTab ageTab)))

/-! ## `clean_all` pipeline (`DataCleaner.clean_all`)

The mortality and hospital sources are not modelled: when they are absent,
`clean_deaths` and `clean_hospital` return immediately after a warning and touch
nothing the master table depends on.  The `labour_2_1` / `labour_2_2` and
`housing_type` sections of `clean_households` are wrapped in `try/except` in the
source and also cannot affect the master table, so they are omitted too. -/

/-- One row of the raw income table as the reader delivers it (a `Year` column
is always present after reading). -/
structure IncomeRaw where
  year : ℤ
  district : String
  incomeAll : Option ℚ

/-- One row of the raw households table.  The reader names a `Total` column only
for some source shapes; `hasTotal` on the surrounding source records whether it
exists. -/
structure HouseholdRaw where
  year : ℤ
  district : String
  econActive : Option ℚ
  econInactive : Option ℚ
  total : Option ℚ

/-- The raw-data dictionary entries that the master table depends on.
`populationAge = some none` models a `population_age` table that was read with
only four named columns, i.e. without `Age_65_plus`; `households = some (b, rows)`
models a households source whose `Total` column exists iff `b`. -/
structure RawData where
  populationAge : Option (Option (List (String × Option ℚ)))
  income : Option (List IncomeRaw)
  households : Option (Bool × List HouseholdRaw)

/-- The `clean_population` step: it unconditionally installs the hardcoded
elderly table with its growth column, then cleans age proportions if the raw
source exists.  The returned `Bool` is `true` when the step raises: a
`population_age` table without the `Age_65_plus` column makes
`clean_numeric(df['Age_65_plus'])` raise `KeyError` (after the elderly table was
already installed). -/
def cleanPopulation (raw : RawData) :
    List ElderlyRow × Option (List (String × Option ℚ)) × Bool :=
  match raw.populationAge with
  | none => (elderlyBase, none, false)
  | some none => (elderlyBase, none, true)
  | some (some rows) => (elderlyBase, some rows, false)

/-- The `_create_fallback_income` table of known HK values. -/
def fallbackIncomeTable : List (String × ℚ) :=
  List.zip hkDistricts
    [42400, 40800, 32500, 36000, 29000, 24500, 31100, 25600,
     24200, 25500, 34200, 26200, 30000, 25800, 31300, 31000, 41200, 31000]

/-- The `_create_fallback_households` table: `inactive_ratio` is
`0.7 e / (0.3 e + 0.7 e)` for each district's elderly 2024 count `e`. -/
def fallbackHouseholdsTable : List (String × Option ℚ) :=
  elderlyBase.map (fun r =>
    (r.district, some ((r.e2024 * (7/10)) / (r.e2024 * (3/10) + r.e2024 * (7/10)))))

/-- The income half of `clean_households`: keep the 2024 rows with a present
income (`dropna`), falling back to the fixed table when the source is missing or
has no 2024 rows. -/
def cleanIncome (raw : RawData) : List (String × ℚ) :=
  match raw.income with
  | none => fallbackIncomeTable
  | some rows =>
    let r24 := rows.filter (fun r => r.year == 2024)
    if r24.isEmpty then fallbackIncomeTable
    else r24.filterMap (fun r => r.incomeAll.map (fun v => (r.district, v)))

/-- The `inactive_ratio` cell for one households row:
`(Economically_inactive * 1000) / (Total * 1000)`, missing when either operand
is missing.  District household totals are taken nonzero: for a zero total
pandas would produce an infinite ratio rather than a missing one. -/
def householdRatio (r : HouseholdRaw) : Option ℚ :=
  match r.econInactive, r.total with
  | some i, some t => if t = 0 then none else some ((i * 1000) / (t * 1000))
  | _, _ => none

/-- The households half of `clean_households`: the `Bool` of the result records
whether the stored `households_2024` table carries an `inactive_ratio` column
(it does not when the source lacks a `Total` column). -/
def cleanHouseholds (raw : RawData) : Bool × List (String × Option ℚ) :=
  match raw.households with
  | none => (true, fallbackHouseholdsTable)
  | some (hasTotal, rows) =>
    let r24 := rows.filter (fun r => r.year == 2024)
    if r24.isEmpty then (true, fallbackHouseholdsTable)
    else if hasTotal then (true, r24.map (fun r => (r.district, householdRatio r)))
    else (false, r24.map (fun r => (r.district, none)))

/-- The cleaned-data dictionary at the end of `clean_all`. -/
structure CleanedState where
  elderly : List ElderlyRow
  ageProps : Option (List (String × Option ℚ))
  income2024 : List (String × ℚ)
  households2024 : Bool × List (String × Option ℚ)
  master : Option (List MasterRow)

/-- `DataCleaner.clean_all` restricted to the steps the master table depends on:
`clean_population`, `clean_households` and `create_master_district`, in source
order, with exceptions propagating out. -/
def cleanAll (raw : RawData) : Except Unit CleanedState :=
  let p := cleanPopulation raw
  if p.2.2 then .error ()
  else
    let inc := cleanIncome raw
    let hh := cleanHouseholds raw
    match createMaster (some p.1) (some inc) (some hh) p.2.1 with
    | .error e => .error e
    | .ok m => .ok ⟨p.1, p.2.1, inc, hh, m⟩

/-- Whether a `clean_all` outcome that completed normally carries a master
table (an erroring run vacuously satisfies this). -/
def masterPresentIfOk : Except Unit CleanedState → Bool
  | .ok c => c.master.isSome
  | .error _ => true

/-! ## `analyst.py` (`Analyst.identify_service_gaps`) -/

/-- The columns of the master table that `identify_service_gaps` reads, with
the two columns it `dropna`s over kept optional. -/
structure GapRow where
  district : String
  incomeAll : Option ℚ
  demandPotential : Option ℚ

/-- The three-way priority label. -/
inductive Priority where
  | Low
  | Medium
  | High
deriving DecidableEq, Repr

/-- The `gap_status` label. -/
inductive GapFlag where
  | Underserved
  | WellServed
deriving DecidableEq, Repr

/-- One row of the `service_gaps` insight table. -/
structure GapOut where
  district : String
  incomeAll : ℚ
  demandPotential : ℚ
  labourRaw : Option ℚ
  incomeNorm : ℚ
  labourFilled : Option ℚ
  estimatedService : Option ℚ
  serviceGap : Option ℚ
  gapFlag : GapFlag
  priorityScore : Option ℚ
  priority : Priority

/-- The `dropna(subset=['Income_all', 'demand_potential'])` step. -/
def gapsValidRows (rows : List GapRow) : List GapRow :=
  rows.filter (fun r => r.incomeAll.isSome && r.demandPotential.isSome)

/-- The income column after the dropna, over which min and max are taken. -/
def validIncomes (rows : List GapRow) : List ℚ :=
  (gapsValidRows rows).filterMap GapRow.incomeAll

/-- The left-merge of the labour table (or an all-missing `labour_score` column
when no labour source exists, mirroring `df['labour_score'] = None`). -/
def gapsWithLabour (rows : List GapRow) (labourTab : Option (List (String × Option ℚ))) :
    List (GapRow × Option ℚ) :=
  match labourTab with
  | some lf => mergeLeft (gapsValidRows rows) (fun r => r.district) lf
      (fun a o => (a, o.bind id))
  | none => (gapsValidRows rows).map (fun a => (a, none))

/-- The `df['labour_score'].median()` used to fill missing labour scores.  The
`else 0.5` alternative in the source is dead: the column always exists at that
point. -/
def labourMedianOf (rows : List GapRow) (labourTab : Option (List (String × Option ℚ))) :
    Option ℚ :=
  medianOpt ((gapsWithLabour rows labourTab).filterMap (fun p => p.2))

/-- Normalised income `(v - min) / (max - min)`, or the neutral 0.5 when the
`income_max > income_min` guard fails. -/
def incomeNormOf (rows : List GapRow) (v : ℚ) : ℚ :=
  let imin := minCol (validIncomes rows)
  let imax := maxCol (validIncomes rows)
  if imin < imax then (v - imin) / (imax - imin) else 1 / 2

/-- A service-gap row before the cohort-level `gap_status` and `priority`
columns are assigned. -/
def gapScore (rows : List GapRow) (labourTab : Option (List (String × Option ℚ)))
    (p : GapRow × Option ℚ) : GapOut :=
  let income := p.1.incomeAll.getD 0
  let demand := p.1.demandPotential.getD 0
  let inorm := incomeNormOf rows income
  let lfill := fillOpt p.2 (labourMedianOf rows labourTab)
  let est := lfill.map (fun l => (inorm * (6/10) + l * (4/10)) * 100)
  let gap := est.map (fun e => demand - e)
  let pscore := est.map (fun e => demand * (1 - e / 100))
  ⟨p.1.district, income, demand, p.2, inorm, lfill, est, gap, .WellServed, pscore, .Low⟩

/-- The scored rows, before `gap_status` and `priority`. -/
def gapsScored (rows : List GapRow) (labourTab : Option (List (String × Option ℚ))) :
    List GapOut :=
  (gapsWithLabour rows labourTab).map (gapScore rows labourTab)

/-- The non-missing priority scores, whose count gates the tertile split. -/
def priorityValidOf (rows : List GapRow) (labourTab : Option (List (String × Option ℚ))) :
    List ℚ :=
  (gapsScored rows labourTab).filterMap GapOut.priorityScore

/-- The four `qcut` bin edges: the 0, 1/3, 2/3 and 1 quantiles of the valid
priority scores. -/
def qcutEdges (l : List ℚ) : ℚ × ℚ × ℚ × ℚ :=
  let s := sortQ l
  (quantileSorted s 0, quantileSorted s (1/3), quantileSorted s (2/3), quantileSorted s 1)

/-- Whether `pd.qcut(..., q=3, labels=[...], duplicates='drop')` succeeds: with
duplicate bin edges the dropped edges leave fewer than three bins and the label
assignment raises `ValueError`, which the source catches. -/
def qcutOkB (l : List ℚ) : Bool :=
  let e := qcutEdges l
  decide (e.1 < e.2.1) && decide (e.2.1 < e.2.2.1) && decide (e.2.2.1 < e.2.2.2)

/-- The tertile label a successful `qcut` gives a valid score. -/
def tertileOf (l : List ℚ) (v : ℚ) : Priority :=
  let e := qcutEdges l
  if v ≤ e.2.1 then .Low else if v ≤ e.2.2.1 then .Medium else .High

/-- The binary fallback: `High` strictly above the median of the valid scores,
`Low` otherwise; a missing score or missing median compares false, giving
`Low`. -/
def binaryPriorityOf (valid : List ℚ) (score : Option ℚ) : Priority :=
  match score, medianOpt valid with
  | some p, some m => if m < p then .High else .Low
  | _, _ => .Low

/-- The full priority assignment of lines 100-127: tertile split when at least 4
valid scores exist and the bin edges are distinct, else the binary fallback; a
missing label is filled with `Low`. -/
def priorityOf (valid : List ℚ) (score : Option ℚ) : Priority :=
  if 4 ≤ valid.length then
    if qcutOkB valid then (score.map (tertileOf valid)).getD .Low
    else binaryPriorityOf valid score
  else binaryPriorityOf valid score

/-- The `gap_status` column: `Underserved` iff the row's gap strictly exceeds
the cohort median gap, with missing values comparing false. -/
def gapFlagOf (gapMedian : Option ℚ) (gap : Option ℚ) : GapFlag :=
  match gap, gapMedian with
  | some x, some m => if m < x then .Underserved else .WellServed
  | _, _ => .WellServed

/-- Descending-by-`service_gap` comparison for the final sort; pandas places
missing values last. -/
def gapGe (a b : GapOut) : Prop :=
  match a.serviceGap, b.serviceGap with
  | some x, some y => y ≤ x
  | some _, none => True
  | none, some _ => False
  | none, none => True

instance : DecidableRel gapGe := by
  intro a b
  unfold gapGe
  match a.serviceGap, b.serviceGap with
  | some x, some y => exact inferInstanceAs (Decidable (y ≤ x))
  | some _, none => exact inferInstanceAs (Decidable True)
  | none, some _ => exact inferInstanceAs (Decidable False)
  | none, none => exact inferInstanceAs (Decidable True)

/-- `Analyst.identify_service_gaps` on a master table whose `Income_all`,
`demand_potential` and `elderly_2024` columns exist (the main path): `none` when
every row is dropped by the dropna (no insight is stored), otherwise the
finished `service_gaps` table. -/
def identifyServiceGaps (rows : List GapRow)
    (labourTab : Option (List (String × Option ℚ))) : Option (List GapOut) :=
  if (gapsValidRows rows).isEmpty then none
  else
    let scored := gapsScored rows labourTab
    let gapMedian := medianOpt (scored.filterMap GapOut.serviceGap)
    let valid := priorityValidOf rows labourTab
    let labelled := scored.map (fun g =>
      { g with gapFlag := gapFlagOf gapMedian g.serviceGap,
               priority := priorityOf valid g.priorityScore })
    some (List.insertionSort gapGe labelled)

/-! ## `forecaster.py`: per-district linear regression (`forecast_elderly_population`)

`sklearn.LinearRegression` fits ordinary least squares of the six populations
against the years 2019-2024, whose mean is 2021.5 and whose centred sum of
squares is 17.5; the closed least-squares form over those fixed abscissae is
embedded directly. -/

/-- Mean of the six historical populations. -/
def ybarOf (r : ElderlyRow) : ℚ :=
  (r.e2019 + r.e2020 + r.e2021 + r.e2022 + r.e2023 + r.e2024) / 6

/-- Centred cross sum `Σ (xᵢ - 2021.5) yᵢ` over the six historical years. -/
def sxyOf (r : ElderlyRow) : ℚ :=
  (-(5 : ℚ)/2) * r.e2019 + (-(3 : ℚ)/2) * r.e2020 + (-(1 : ℚ)/2) * r.e2021
    + (1/2) * r.e2022 + (3/2) * r.e2023 + (5/2) * r.e2024

/-- The least-squares slope, reported as `annual_growth`. -/
def slopeOf (r : ElderlyRow) : ℚ := sxyOf r / (35 / 2)

/-- The least-squares intercept. -/
def interceptOf (r : ElderlyRow) : ℚ := ybarOf r - slopeOf r * (4043 / 2)

/-- The value of the fitted line at year `y` (`model.predict`). -/
def linePred (r : ElderlyRow) (y : ℚ) : ℚ := interceptOf r + slopeOf r * y

/-- The integer prediction stored per forecast year, `int(pred[i])`. -/
def predIntOf (r : ElderlyRow) (y : ℚ) : ℤ := pyTrunc (linePred r y)

/-- Residual sum of squares of the fit on the historical years. -/
def ssResOf (r : ElderlyRow) : ℚ :=
  (r.e2019 - linePred r 2019)^2 + (r.e2020 - linePred r 2020)^2
    + (r.e2021 - linePred r 2021)^2 + (r.e2022 - linePred r 2022)^2
    + (r.e2023 - linePred r 2023)^2 + (r.e2024 - linePred r 2024)^2

/-- Total sum of squares of the historical populations. -/
def ssTotOf (r : ElderlyRow) : ℚ :=
  (r.e2019 - ybarOf r)^2 + (r.e2020 - ybarOf r)^2 + (r.e2021 - ybarOf r)^2
    + (r.e2022 - ybarOf r)^2 + (r.e2023 - ybarOf r)^2 + (r.e2024 - ybarOf r)^2

/-- `sklearn.metrics.r2_score` on the fitted values: `1 - ssRes / ssTot`, with
the degenerate zero-variance target reported as 1 for a perfect fit and 0
otherwise. -/
def r2Of (r : ElderlyRow) : ℚ :=
  if ssTotOf r = 0 then (if ssResOf r = 0 then 1 else 0) else 1 - ssResOf r / ssTotOf r

/-- One row of the `elderly_2025_2030` forecast table. -/
structure ForecastRow where
  district : String
  p2025 : ℤ
  p2026 : ℤ
  p2027 : ℤ
  p2028 : ℤ
  p2029 : ℤ
  p2030 : ℤ
  annualGrowth : ℚ
  r2 : ℚ

/-- The per-district forecast row. -/
def fitRow (r : ElderlyRow) : ForecastRow :=
  ⟨r.district, predIntOf r 2025, predIntOf r 2026, predIntOf r 2027,
   predIntOf r 2028, predIntOf r 2029, predIntOf r 2030, slopeOf r, r2Of r⟩

/-- The synthetic `Hong Kong Total` row: per-year sums of the district
predictions, and the cohort means of `annual_growth` and `r2_score`. -/
def totalRowOf (l : List ForecastRow) : ForecastRow :=
  ⟨"Hong Kong Total",
   (l.map ForecastRow.p2025).sum, (l.map ForecastRow.p2026).sum,
   (l.map ForecastRow.p2027).sum, (l.map ForecastRow.p2028).sum,
   (l.map ForecastRow.p2029).sum, (l.map ForecastRow.p2030).sum,
   (l.map ForecastRow.annualGrowth).sum / (l.length : ℚ),
   (l.map ForecastRow.r2).sum / (l.length : ℚ)⟩

/-- `forecast_elderly_population`: the per-district rows followed by the
territory-total row. -/
def forecastElderly (rows : List ElderlyRow) : List ForecastRow :=
  rows.map fitRow ++ [totalRowOf (rows.map fitRow)]

/-! ## IEEE-754 double-precision model

A float is `(m, e) : ℤ × ℤ` standing for `m * 2 ^ e`; `flQ`, `flE` round an
exact rational (given as numerator and denominator, or as `n * 2 ^ e`) to 53
significant bits, to nearest with ties to even, which is exact IEEE-754 binary64
behaviour away from overflow and subnormals — far away, for every value these
stages touch. -/

/-- Scales `n / d` into `[1, 2)` by doubling the smaller side, returning the
scaled pair and the binary exponent. -/
def flLoop : ℕ → ℕ → ℕ → ℤ → (ℕ × ℕ × ℤ)
  | 0, n, d, a => (n, d, a)
  | fuel+1, n, d, a =>
    if n < d then flLoop fuel (2*n) d (a-1)
    else if 2*d ≤ n then flLoop fuel n (2*d) (a+1)
    else (n, d, a)

/-- Rounds the positive rational `n / d` to a 53-bit mantissa, ties to even. -/
def flPosQ (n d : ℕ) : ℤ × ℤ :=
  let t := flLoop 300 n d 0
  let f : ℕ := (t.1 * 2^52) / t.2.1
  let r : ℕ := (t.1 * 2^52) % t.2.1
  let m : ℕ :=
    if 2*r < t.2.1 then f
    else if t.2.1 < 2*r then f+1
    else if f % 2 = 0 then f else f+1
  ((m : ℤ), t.2.2 - 52)

/-- Rounds the rational `n / d` to the nearest double. -/
def flQ (n : ℤ) (d : ℕ) : ℤ × ℤ :=
  if n = 0 then (0, 0)
  else if 0 < n then flPosQ n.toNat d
  else (- (flPosQ (-n).toNat d).1, (flPosQ (-n).toNat d).2)

/-- Rounds the exact dyadic value `n * 2 ^ e` to the nearest double. -/
def flE (n : ℤ) (e : ℤ) : ℤ × ℤ :=
  if 0 ≤ e then flQ (n * 2^e.toNat) 1 else flQ n (2^(-e).toNat)

/-- Float multiplication: the exact product, rounded. -/
def dmul (x y : ℤ × ℤ) : ℤ × ℤ := flE (x.1 * y.1) (x.2 + y.2)

/-- Conversion of a Python int to a float. -/
def dofInt (k : ℤ) : ℤ × ℤ := flE k 0

/-- Product of a Python int and a float, as in `elderly_pop * adjusted_rate`. -/
def dmulInt (k : ℤ) (x : ℤ × ℤ) : ℤ × ℤ := dmul (dofInt k) x

/-- Float addition: the exact sum, rounded. -/
def dadd (x y : ℤ × ℤ) : ℤ × ℤ :=
  let e := min x.2 y.2
  flE (x.1 * 2^((x.2 - e).toNat) + y.1 * 2^((y.2 - e).toNat)) e

/-- Float subtraction. -/
def dsub (x y : ℤ × ℤ) : ℤ × ℤ := dadd x (-y.1, y.2)

/-- Python `int()` of a float: truncation toward zero. -/
def dtrunc (x : ℤ × ℤ) : ℤ :=
  if 0 ≤ x.2 then x.1 * 2^x.2.toNat
  else if 0 ≤ x.1 then x.1 / 2^(-x.2).toNat
  else -((-x.1) / 2^(-x.2).toNat)

/-- The exact rational value of a float. -/
def dval (x : ℤ × ℤ) : ℚ :=
  if 0 ≤ x.2 then (x.1 : ℚ) * 2^x.2.toNat else (x.1 : ℚ) / 2^(-x.2).toNat

/-! ## `forecaster.py`: equipment demand and pandemic scenario -/

/-- EQUIPMENT_ADOPTION_RATES from `config.py`, as the doubles denoted by its
literals. -/
def adoptionRatesD : List (String × (ℤ × ℤ)) :=
  [("Mobility - Wheelchairs", flQ 3 25), ("Mobility - Walkers", flQ 3 20),
   ("Bathroom Safety", flQ 9 50), ("Beds & Transfer", flQ 2 25),
   ("Monitoring", flQ 1 10), ("Respiratory", flQ 3 50),
   ("Daily Living", flQ 1 20), ("Exercise", flQ 1 25),
   ("Cognitive Support", flQ 7 100)]

/-- PANDEMIC_MULTIPLIERS from `config.py`, as doubles. -/
def pandemicMultipliersD : List (String × (ℤ × ℤ)) :=
  [("Respiratory", flQ 7 2), ("Monitoring", flQ 14 5),
   ("Cognitive Support", flQ 9 5), ("Mobility - Wheelchairs", flQ 7 10),
   ("Mobility - Walkers", flQ 13 20), ("Exercise", flQ 19 10),
   ("Bathroom Safety", flQ 17 20), ("Beds & Transfer", flQ 6 5),
   ("Daily Living", flQ 11 10)]

/-- `PANDEMIC_MULTIPLIERS.get(category, 1.0)`. -/
def multOf (c : String) : ℤ × ℤ :=
  ((pandemicMultipliersD.find? (fun p => p.1 == c)).map (·.2)).getD (flQ 1 1)

/-- `year_factor = 1 + (ADOPTION_GROWTH_RATE * (year - 2024))` in float
arithmetic, with ADOPTION_GROWTH_RATE = 0.05. -/
def yearFactorD (y : ℤ) : ℤ × ℤ := dadd (dofInt 1) (dmul (flQ 1 20) (dofInt (y - 2024)))

/-- `adjusted_rate = base_rate * year_factor`. -/
def adjustedRateD (base : ℤ × ℤ) (y : ℤ) : ℤ × ℤ := dmul base (yearFactorD y)

/-- `estimated_demand = int(elderly_pop * adjusted_rate)`. -/
def estDemandD (pop : ℤ) (base : ℤ × ℤ) (y : ℤ) : ℤ :=
  dtrunc (dmul (dofInt pop) (adjustedRateD base y))

/-- The per-district prediction column for a forecast year. -/
def predOf (r : ForecastRow) (y : ℤ) : ℤ :=
  if y = 2025 then r.p2025 else if y = 2026 then r.p2026 else if y = 2027 then r.p2027
  else if y = 2028 then r.p2028 else if y = 2029 then r.p2029 else r.p2030

/-- One row of the `equipment_demand_2025_2030` table.  The stored
`Adoption_Rate` column additionally rounds the rate to three decimals for
display; the unrounded double is kept here. -/
structure EqRow where
  district : String
  year : ℤ
  category : String
  pop : ℤ
  rate : ℤ × ℤ
  demand : ℤ
deriving DecidableEq, Repr

/-- The `EqRow` a given district row, year and category would produce. -/
def eqRowOf (r : ForecastRow) (y : ℤ) (c : String) (b : ℤ × ℤ) : EqRow :=
  ⟨r.district, y, c, predOf r y, adjustedRateD b y, estDemandD (predOf r y) b y⟩

/-- `forecast_equipment_demand`: loop years × districts (the territory-total row
excluded) × categories, keeping a row exactly when its demand exceeds 100. -/
def equipmentForecast (rows : List ForecastRow) : List EqRow :=
  let dist := rows.filter (fun r => r.district ≠ "Hong Kong Total")
  forecastYearsList.flatMap (fun y =>
    dist.flatMap (fun r =>
      adoptionRatesD.filterMap (fun p =>
        if 100 < estDemandD (predOf r y) p.2 y then some (eqRowOf r y p.1 p.2) else none)))

/-- One row of the pandemic-scenario table. -/
structure PanRow where
  district : String
  category : String
  normal : ℤ
  scenario : ℤ
  multiplier : ℤ × ℤ
  diff : ℤ
deriving DecidableEq, Repr

/-- `simulate_pandemic_scenario`: the 2025 slice of the equipment forecast, with
`Pandemic_Demand = int(normal * multiplier)` and
`Difference = int(normal * (multiplier - 1))`, both in float arithmetic. -/
def simulatePandemic (base : List EqRow) : List PanRow :=
  (base.filter (fun r => r.year == 2025)).map (fun r =>
    let m := multOf r.category
    ⟨r.district, r.category, r.demand,
     dtrunc (dmul (dofInt r.demand) m), m,
     dtrunc (dmul (dofInt r.demand) (dsub m (dofInt 1)))⟩)

/-! ## Theorems -/

/-- Membership in the sorted master table is membership in the scored rows. -/
lemma mem_scoreMaster {cohort : List PreRow} {r : MasterRow} :
    r ∈ scoreMaster cohort ↔ r ∈ cohort.map (scoreRow cohort) :=
  (List.perm_insertionSort masterGe (cohort.map (scoreRow cohort))).mem_iff

/-- The clip keeps every value at least 0. -/
lemma clip0100_nonneg (q : ℚ) : 0 ≤ clip0100 q :=
  le_min (by norm_num) (le_max_left 0 q)

/-- The clip keeps every value at most 100. -/
lemma clip0100_le_hundred (q : ℚ) : clip0100 q ≤ 100 :=
  min_le_left 100 (max 0 q)

/-- C1.  Every master-table row's `demand_potential` is exactly
`100 × (0.5 × elderly_score + 0.3 × income_score + 0.2 × inactive_score)`
clamped to `[0, 100]`, hence lies in `[0, 100]`; and a row whose three optional
indicators are all missing still yields a row of the table, with the default
fills 30000 / 0.35 / 22.3 and a `demand_potential` in range. -/
theorem demand_potential_clipped_formula (cohort : List PreRow) :
    (∀ r ∈ scoreMaster cohort,
      r.demandPotential
          = clip0100 (100 * ((1/2) * r.elderlyScore + (3/10) * r.incomeScore
              + (1/5) * r.inactiveScore))
        ∧ 0 ≤ r.demandPotential ∧ r.demandPotential ≤ 100)
    ∧ (∀ p ∈ cohort, p.incomeAll = none → p.inactiveRatio = none → p.age65 = none →
        scoreRow cohort p ∈ scoreMaster cohort
        ∧ (scoreRow cohort p).incomeAll = 30000
        ∧ (scoreRow cohort p).inactiveRatio = 35/100
        ∧ (scoreRow cohort p).age65 = 223/10
        ∧ 0 ≤ (scoreRow cohort p).demandPotential
        ∧ (scoreRow cohort p).demandPotential ≤ 100) := by
  constructor
  · intro r hr
    obtain ⟨p, _, rfl⟩ := List.mem_map.mp (mem_scoreMaster.mp hr)
    refine ⟨?_, clip0100_nonneg _, clip0100_le_hundred _⟩
    simp only [scoreRow]
    exact congrArg clip0100 (by ring)
  · intro p hp h1 h2 h3
    refine ⟨mem_scoreMaster.mpr (List.mem_map_of_mem _ hp), ?_, ?_, ?_,
      clip0100_nonneg _, clip0100_le_hundred _⟩
    · simp [scoreRow, filledIncome, h1]
    · simp [scoreRow, filledInactive, h2]
    · simp [scoreRow, filledAge65, h3]

/-- Witness for C1 at a concrete all-missing row. -/
theorem demand_potential_clipped_formula_witness :
    (⟨"Sha Tin", 161200, 35, none, none, none⟩ : PreRow)
        ∈ [(⟨"Sha Tin", 161200, 35, none, none, none⟩ : PreRow)]
    ∧ (scoreRow [⟨"Sha Tin", 161200, 35, none, none, none⟩]
          ⟨"Sha Tin", 161200, 35, none, none, none⟩).incomeAll = 30000
    ∧ 0 ≤ (scoreRow [⟨"Sha Tin", 161200, 35, none, none, none⟩]
          ⟨"Sha Tin", 161200, 35, none, none, none⟩).demandPotential := by
  have h := (demand_potential_clipped_formula
      [⟨"Sha Tin", 161200, 35, none, none, none⟩]).2
      ⟨"Sha Tin", 161200, 35, none, none, none⟩ (by simp) rfl rfl rfl
  exact ⟨by simp, h.2.1, h.2.2.2.2.1⟩

/-- C2.  For each of the three indicators, when the cohort maximum of the
(filled) column equals its minimum, the zero-variance guard gives every row the
neutral score 0.5 for that indicator. -/
theorem zero_variance_neutral_score (cohort : List PreRow) :
    (maxCol (cohort.map filledIncome) = minCol (cohort.map filledIncome) →
      ∀ r ∈ scoreMaster cohort, r.incomeScore = 1/2)
    ∧ (maxCol (cohort.map PreRow.elderly2024) = minCol (cohort.map PreRow.elderly2024) →
      ∀ r ∈ scoreMaster cohort, r.elderlyScore = 1/2)
    ∧ (maxCol (cohort.map filledInactive) = minCol (cohort.map filledInactive) →
      ∀ r ∈ scoreMaster cohort, r.inactiveScore = 1/2) := by
  refine ⟨?_, ?_, ?_⟩ <;> intro h r hr <;>
    obtain ⟨p, _, rfl⟩ := List.mem_map.mp (mem_scoreMaster.mp hr) <;>
    simp only [scoreRow] <;> rw [if_neg (h ▸ lt_irrefl _)]

/-- Witness for C2: a two-row cohort with identical incomes. -/
theorem zero_variance_neutral_score_witness :
    maxCol ([⟨"A", 100, 0, some 30000, some (1/2), none⟩,
             ⟨"B", 200, 0, some 30000, some (1/4), none⟩].map filledIncome)
      = minCol ([(⟨"A", 100, 0, some 30000, some (1/2), none⟩ : PreRow),
             ⟨"B", 200, 0, some 30000, some (1/4), none⟩].map filledIncome)
    ∧ (scoreRow [⟨"A", 100, 0, some 30000, some (1/2), none⟩,
             ⟨"B", 200, 0, some 30000, some (1/4), none⟩]
          ⟨"A", 100, 0, some 30000, some (1/2), none⟩).incomeScore = 1/2 := by
  have hv : maxCol ([⟨"A", 100, 0, some 30000, some (1/2), none⟩,
             ⟨"B", 200, 0, some 30000, some (1/4), none⟩].map filledIncome)
      = minCol ([(⟨"A", 100, 0, some 30000, some (1/2), none⟩ : PreRow),
             ⟨"B", 200, 0, some 30000, some (1/4), none⟩].map filledIncome) := by
    simp [maxCol, minCol, filledIncome]
  refine ⟨hv, (zero_variance_neutral_score _).1 hv _ ?_⟩
  exact mem_scoreMaster.mpr (List.mem_map_of_mem _ (by simp))

/-- With pairwise-distinct right-table keys, at most one right row matches any
key. -/
lemma filter_key_length_le_one {β : Type} (r : List (String × β))
    (hr : (r.map Prod.fst).Nodup) (k : String) :
    (r.filter (fun p => p.1 == k)).length ≤ 1 := by
  induction r with
  | nil => simp
  | cons p t ih =>
    simp only [List.map_cons, List.nodup_cons] at hr
    rw [List.filter_cons]
    by_cases hpk : (p.1 == k) = true
    · rw [if_pos hpk]
      have hnil : t.filter (fun q => q.1 == k) = [] := by
        rw [List.filter_eq_nil_iff]
        intro q hq hqk
        exact hr.1 (by
          have h1 : p.1 = k := by simpa using hpk
          have h2 : q.1 = k := by simpa using hqk
          rw [h1, ← h2]
          exact List.mem_map_of_mem Prod.fst hq)
      simp [hnil]
    · rw [if_neg hpk]
      exact ih hr.2

/-- A left merge against a right table with pairwise-distinct keys yields
exactly one row per left row, preserving the key column. -/
lemma mergeLeft_map_key {α β γ : Type} (l : List α) (key : α → String)
    (r : List (String × β)) (mk : α → Option β → γ) (g : γ → String)
    (hg : ∀ a o, g (mk a o) = key a)
    (hr : (r.map Prod.fst).Nodup) :
    (mergeLeft l key r mk).map g = l.map key := by
  induction l with
  | nil => rfl
  | cons a t ih =>
    have hhead : ((if (r.filter (fun p => p.1 == key a)).isEmpty
          then [mk a none]
          else (r.filter (fun p => p.1 == key a)).map (fun p => mk a (some p.2))).map g)
        = [key a] := by
      cases hcase : r.filter (fun p => p.1 == key a) with
      | nil => simp [hg]
      | cons x xs =>
        have h1 := filter_key_length_le_one r hr (key a)
        rw [hcase] at h1
        have hx : xs = [] := by
          cases xs with
          | nil => rfl
          | cons y ys => simp at h1
        subst hx
        simp [hcase, hg]
    simp only [mergeLeft, List.flatMap_cons, List.map_append] at ih ⊢
    rw [List.map_cons, ← ih]
    exact congrArg (· ++ (t.flatMap _).map g) hhead

/-- Sorting the scored master rows permutes their district column. -/
lemma scoreMaster_districts_perm (rows : List PreRow) :
    ((scoreMaster rows).map MasterRow.district).Perm (rows.map PreRow.district) := by
  have h := (List.perm_insertionSort masterGe (rows.map (scoreRow rows))).map MasterRow.district
  rw [List.map_map] at h
  exact h

/-- The base step keeps the district column of the elderly table. -/
lemma masterM1_districts (base : List ElderlyRow) :
    (masterM1 base).map PreRow.district = base.map ElderlyRow.district := by
  rw [masterM1, List.map_map]
  rfl

/-- The income step keeps the district column when the income table has
pairwise-distinct district names. -/
lemma masterM2_districts (base : List ElderlyRow) (incomeTab : Option (List (String × ℚ)))
    (h : ∀ t, incomeTab = some t → (t.map Prod.fst).Nodup) :
    (masterM2 base incomeTab).map PreRow.district = (masterM1 base).map PreRow.district := by
  cases incomeTab with
  | none => rw [masterM2, List.map_map]; rfl
  | some t =>
    simp only [masterM2]
    exact mergeLeft_map_key (masterM1 base) (fun a => a.district) t
      (fun a o => { a with incomeAll := o }) PreRow.district (fun a o => rfl) (h t rfl)

/-- The households step keeps the district column when the households table has
pairwise-distinct district names. -/
lemma masterM3_districts (base : List ElderlyRow) (incomeTab : Option (List (String × ℚ)))
    (householdsTab : Option (Bool × List (String × Option ℚ)))
    (h : ∀ p, householdsTab = some p → (p.2.map Prod.fst).Nodup) :
    (masterM3 base incomeTab householdsTab).map PreRow.district
      = (masterM2 base incomeTab).map PreRow.district := by
  match householdsTab, h with
  | none, _ => rw [masterM3, List.map_map]; rfl
  | some (true, rows), h =>
    simp only [masterM3]
    exact mergeLeft_map_key (masterM2 base incomeTab) (fun a => a.district) rows
      (fun a o => { a with inactiveRatio := o.bind id }) PreRow.district (fun a o => rfl)
      (h (true, rows) rfl)
  | some (false, rows), _ => rfl

/-- The age step keeps the district column when the age table has
pairwise-distinct district names. -/
lemma masterM4_districts (base : List ElderlyRow) (incomeTab : Option (List (String × ℚ)))
    (householdsTab : Option (Bool × List (String × Option ℚ)))
    (ageTab : Option (List (String × Option ℚ)))
    (h : ∀ t, ageTab = some t → (t.map Prod.fst).Nodup) :
    (masterM4 base incomeTab householdsTab ageTab).map PreRow.district
      = (masterM3 base incomeTab householdsTab).map PreRow.district := by
  cases ageTab with
  | none => rw [masterM4, List.map_map]; rfl
  | some t =>
    simp only [masterM4]
    exact mergeLeft_map_key (masterM3 base incomeTab householdsTab) (fun a => a.district) t
      (fun a o => { a with age65 := o.bind id }) PreRow.district (fun a o => rfl) (h t rfl)

/-- C3 (amended).  Provided every available optional source lists each district
name at most once, and an available households table carries its
`inactive_ratio` column, the Reconciler produces a master table whose district
column is exactly the fixed 18-district set, one row each. -/
theorem master_unique_keys_eighteen_districts
    (incomeTab : Option (List (String × ℚ)))
    (householdsTab : Option (Bool × List (String × Option ℚ)))
    (ageTab : Option (List (String × Option ℚ)))
    (hinc : ∀ t, incomeTab = some t → (t.map Prod.fst).Nodup)
    (hhh : ∀ p, householdsTab = some p → p.1 = true ∧ (p.2.map Prod.fst).Nodup)
    (hage : ∀ t, ageTab = some t → (t.map Prod.fst).Nodup) :
    ∃ m, createMaster (some elderlyBase) incomeTab householdsTab ageTab = .ok (some m)
      ∧ (m.map MasterRow.district).Perm hkDistricts := by
  have hd4 : (masterM4 elderlyBase incomeTab householdsTab ageTab).map PreRow.district
      = hkDistricts := by
    rw [masterM4_districts _ _ _ _ hage,
      masterM3_districts _ _ _ (fun p hp => (hhh p hp).2),
      masterM2_districts _ _ hinc, masterM1_districts]
    rfl
  have hperm : ((scoreMaster (masterM4 elderlyBase incomeTab householdsTab ageTab)).map
      MasterRow.district).Perm hkDistricts :=
    hd4 ▸ scoreMaster_districts_perm _
  cases householdsTab with
  | none => exact ⟨_, rfl, hperm⟩
  | some p =>
    obtain ⟨hb, _⟩ := hhh p rfl
    obtain ⟨b, rows⟩ := p
    cases hb
    exact ⟨_, rfl, hperm⟩

/-- Witness for C3 at the fully-degraded configuration (every optional source
absent). -/
theorem master_unique_keys_eighteen_districts_witness :
    ∃ m, createMaster (some elderlyBase) none none none = .ok (some m)
      ∧ (m.map MasterRow.district).Perm hkDistricts :=
  master_unique_keys_eighteen_districts none none none
    (fun _ h => nomatch h) (fun _ h => nomatch h) (fun _ h => nomatch h)

/-- C3 counterexample.  An income source that lists `Eastern` twice makes the
left merge duplicate that district: the master table has 19 rows, not one per
district. -/
theorem master_duplicate_income_rows :
    (createMaster (some elderlyBase) (some [("Eastern", 20000), ("Eastern", 25000)])
        none none).map (Option.map List.length) = .ok (some 19) := by
  have hlen : (scoreMaster (masterM4 elderlyBase
      (some [("Eastern", 20000), ("Eastern", 25000)]) none none)).length = 19 := by
    rw [scoreMaster, List.length_insertionSort, List.length_map]
    decide
  simp only [createMaster, Except.map, Option.map]
  rw [hlen]

/-- With the elderly table present, `create_master_district` either raises (the
missing-ratio-column `KeyError`) or stores a master table: the fatal no-master
return happens only when the elderly table itself is absent. -/
lemma createMaster_some_not_none (base : List ElderlyRow)
    (incomeTab : Option (List (String × ℚ)))
    (householdsTab : Option (Bool × List (String × Option ℚ)))
    (ageTab : Option (List (String × Option ℚ))) :
    createMaster (some base) incomeTab householdsTab ageTab ≠ .ok none := by
  cases householdsTab with
  | none => simp [createMaster]
  | some p =>
    obtain ⟨b, rows⟩ := p
    cases b <;> simp [createMaster]

/-- C10 (amended).  `clean_population` unconditionally installs the hardcoded
18-district elderly table, whose 2019 values are all strictly positive (so the
growth division is well defined); hence the Reconciler's fatal branch for a
missing elderly table is unreachable through `clean_all`, and every `clean_all`
run that completes normally carries a master table.  (Runs may still fail
before or inside the Reconciler; see the counterexample.) -/
theorem clean_all_fatal_branch_unreachable :
    (∀ raw : RawData, (cleanPopulation raw).1 = elderlyBase)
    ∧ elderlyBase.length = 18
    ∧ elderlyBase.all (fun r => decide (0 < r.e2019)) = true
    ∧ ∀ raw : RawData, masterPresentIfOk (cleanAll raw) = true := by
  refine ⟨?_, rfl, by decide, ?_⟩
  · intro raw
    obtain ⟨pa, inc, hh⟩ := raw
    rcases pa with _ | (_ | rows) <;> rfl
  · intro raw
    simp only [cleanAll]
    cases hb : (cleanPopulation raw).2.2 with
    | true => simp [masterPresentIfOk]
    | false =>
      simp only [Bool.false_eq_true, if_false]
      cases hm : createMaster (some (cleanPopulation raw).1) (some (cleanIncome raw))
          (some (cleanHouseholds raw)) (cleanPopulation raw).2.1 with
      | error e => simp [masterPresentIfOk]
      | ok m =>
        cases m with
        | none => exact absurd hm (createMaster_some_not_none _ _ _ _)
        | some l => simp [masterPresentIfOk]

/-- C10 counterexample.  A raw `population_age` source read without the
`Age_65_plus` column makes `clean_population` raise, so this `clean_all` run
produces no master table at all (while the fatal missing-elderly branch is
still never taken). -/
theorem clean_all_age_shape_failure :
    cleanAll ⟨some none, none, none⟩ = .error () := rfl

/-- A missing score always gets the `Low` label from the binary fallback. -/
lemma binaryPriorityOf_none (valid : List ℚ) : binaryPriorityOf valid none = .Low := by
  unfold binaryPriorityOf
  cases medianOpt valid <;> rfl

/-- A missing score always ends up labelled `Low`, in both branches. -/
lemma priorityOf_none (valid : List ℚ) : priorityOf valid none = .Low := by
  unfold priorityOf
  by_cases h : 4 ≤ valid.length
  · rw [if_pos h]
    by_cases hq : qcutOkB valid
    · rw [if_pos hq]; rfl
    · rw [if_neg hq]; exact binaryPriorityOf_none valid
  · rw [if_neg h]; exact binaryPriorityOf_none valid

/-- When fewer than 4 valid scores exist or the tertile edges collapse, the
priority assignment is the binary median fallback. -/
lemma priorityOf_fallback (valid : List ℚ) (s : Option ℚ)
    (h : valid.length < 4 ∨ qcutOkB valid = false) :
    priorityOf valid s = binaryPriorityOf valid s := by
  unfold priorityOf
  rcases h with h | h
  · rw [if_neg (by omega)]
  · by_cases h4 : 4 ≤ valid.length
    · rw [if_pos h4, if_neg (by simp [h])]
    · rw [if_neg h4]

/-- Every row of the service-gaps table is a scored row with its `gap_status`
and `priority` columns assigned. -/
lemma mem_identifyServiceGaps {rows : List GapRow}
    {labourTab : Option (List (String × Option ℚ))} {out : GapOut}
    (hmem : out ∈ (identifyServiceGaps rows labourTab).getD []) :
    ∃ g ∈ gapsScored rows labourTab,
      out = { g with
        gapFlag := gapFlagOf
          (medianOpt ((gapsScored rows labourTab).filterMap GapOut.serviceGap)) g.serviceGap,
        priority := priorityOf (priorityValidOf rows labourTab) g.priorityScore } := by
  by_cases hemp : (gapsValidRows rows).isEmpty
  · rw [identifyServiceGaps, if_pos hemp] at hmem
    simp at hmem
  · rw [identifyServiceGaps, if_neg hemp] at hmem
    simp only [Option.getD_some] at hmem
    have hmem2 := (List.perm_insertionSort gapGe _).mem_iff.mp hmem
    obtain ⟨g, hg, rfl⟩ := List.mem_map.mp hmem2
    exact ⟨g, hg, rfl⟩

/-- C4 (behaviour the code actually has).  With no labour source, the
`labour_score` column is entirely missing, its median is missing, the `fillna`
leaves it missing, and so `estimated_service`, `service_gap` and
`priority_score` are missing for every district and every priority degrades to
`Low` — the income-only Tier-2 estimate described by the specification is never
produced. -/
theorem no_labour_source_null_estimated_service (rows : List GapRow) (out : GapOut)
    (hmem : out ∈ (identifyServiceGaps rows none).getD []) :
    out.labourFilled = none ∧ out.estimatedService = none ∧ out.serviceGap = none
      ∧ out.priorityScore = none ∧ out.priority = Priority.Low := by
  have hmed : labourMedianOf rows none = none := by
    have : (gapsWithLabour rows none).filterMap (fun p => p.2) = [] := by
      rw [gapsWithLabour]
      simp
    rw [labourMedianOf, this]
    rfl
  obtain ⟨g, hg, rfl⟩ := mem_identifyServiceGaps hmem
  obtain ⟨p, hp, rfl⟩ := List.mem_map.mp hg
  have hp2 : p.2 = none := by
    rw [gapsWithLabour] at hp
    obtain ⟨a, _, rfl⟩ := List.mem_map.mp hp
    rfl
  refine ⟨?_, ?_, ?_, ?_, ?_⟩ <;>
    simp [gapScore, fillOpt, hp2, hmed, priorityOf_none]

/-- Witness for C4: one district with income and demand present but no labour
source; its row carries a missing `estimated_service` and a `Low` priority. -/
theorem no_labour_source_null_estimated_service_witness :
    (⟨"Eastern", 30000, 50, none, 1/2, none, none, none, GapFlag.WellServed, none,
        Priority.Low⟩ : GapOut)
      ∈ (identifyServiceGaps [⟨"Eastern", some 30000, some 50⟩] none).getD []
    ∧ (⟨"Eastern", 30000, 50, none, 1/2, none, none, none, GapFlag.WellServed, none,
        Priority.Low⟩ : GapOut).estimatedService = none
    ∧ (⟨"Eastern", 30000, 50, none, 1/2, none, none, none, GapFlag.WellServed, none,
        Priority.Low⟩ : GapOut).priority = Priority.Low := by
  have heq : identifyServiceGaps [⟨"Eastern", some 30000, some 50⟩] none
      = some [⟨"Eastern", 30000, 50, none, 1/2, none, none, none, GapFlag.WellServed, none,
          Priority.Low⟩] := rfl
  have hmem : (⟨"Eastern", 30000, 50, none, 1/2, none, none, none, GapFlag.WellServed, none,
      Priority.Low⟩ : GapOut)
      ∈ (identifyServiceGaps [⟨"Eastern", some 30000, some 50⟩] none).getD [] := by
    rw [heq]; simp
  have h := no_labour_source_null_estimated_service
    [⟨"Eastern", some 30000, some 50⟩] _ hmem
  exact ⟨hmem, h.2.1, h.2.2.2.2⟩

/-- C5.  When fewer than 4 districts have a valid `priority_score`, or the
tertile bin edges collapse (so `qcut` fails), every emitted row's priority is
the binary median-threshold fallback — `High` strictly above the median of the
valid scores, `Low` otherwise — and a row with a missing score is `Low`; nothing
is raised (the scorer is total). -/
theorem tertile_fallback_binary_median (rows : List GapRow)
    (labourTab : Option (List (String × Option ℚ))) (out : GapOut)
    (hfall : (priorityValidOf rows labourTab).length < 4
      ∨ qcutOkB (priorityValidOf rows labourTab) = false)
    (hmem : out ∈ (identifyServiceGaps rows labourTab).getD []) :
    out.priority = binaryPriorityOf (priorityValidOf rows labourTab) out.priorityScore
      ∧ (out.priorityScore = none → out.priority = Priority.Low) := by
  obtain ⟨g, _, rfl⟩ := mem_identifyServiceGaps hmem
  constructor
  · exact priorityOf_fallback _ _ hfall
  · intro hnone
    have : g.priorityScore = none := hnone
    rw [show ({ g with
        gapFlag := gapFlagOf
          (medianOpt ((gapsScored rows labourTab).filterMap GapOut.serviceGap)) g.serviceGap,
        priority := priorityOf (priorityValidOf rows labourTab) g.priorityScore } : GapOut).priority
        = priorityOf (priorityValidOf rows labourTab) g.priorityScore from rfl, this,
      priorityOf_none]

/-- Witness for C5: a single valid district (0 valid scores, below the
4-district threshold) with an empty labour table; the fallback labels it
`Low`. -/
theorem tertile_fallback_binary_median_witness :
    (priorityValidOf [⟨"A", some 20000, some 80⟩] (some [])).length < 4
    ∧ (⟨"A", 20000, 80, none, 1/2, none, none, none, GapFlag.WellServed, none,
        Priority.Low⟩ : GapOut).priority
      = binaryPriorityOf (priorityValidOf [⟨"A", some 20000, some 80⟩] (some []))
        (⟨"A", 20000, 80, none, 1/2, none, none, none, GapFlag.WellServed, none,
          Priority.Low⟩ : GapOut).priorityScore := by
  have hlen : (priorityValidOf [⟨"A", some 20000, some 80⟩] (some [])).length < 4 := by
    rw [show priorityValidOf [⟨"A", some 20000, some 80⟩] (some []) = [] from rfl]
    decide
  have heq : identifyServiceGaps [⟨"A", some 20000, some 80⟩] (some [])
      = some [⟨"A", 20000, 80, none, 1/2, none, none, none, GapFlag.WellServed, none,
          Priority.Low⟩] := rfl
  have hmem : (⟨"A", 20000, 80, none, 1/2, none, none, none, GapFlag.WellServed, none,
      Priority.Low⟩ : GapOut)
      ∈ (identifyServiceGaps [⟨"A", some 20000, some 80⟩] (some [])).getD [] := by
    rw [heq]; simp
  exact ⟨hlen, (tertile_fallback_binary_median _ _ _ (Or.inl hlen) hmem).1⟩

/-- Truncation toward zero of a non-negative number is its non-negative
floor. -/
lemma pyTrunc_nonneg {q : ℚ} (h : 0 ≤ q) : 0 ≤ pyTrunc q := by
  rw [pyTrunc, if_pos h]
  exact Int.floor_nonneg.mpr h

/-- C6.  The forecast table is the per-district rows followed by one synthetic
territory-total row whose per-year prediction is the sum of the per-district
predictions and whose `annual_growth` and `r2_score` are the arithmetic means of
the per-district values — not a re-fit on the summed series. -/
theorem territory_total_row_sums_and_means (rows : List ElderlyRow) :
    (forecastElderly rows).getLast? = some (totalRowOf (rows.map fitRow))
    ∧ (forecastElderly rows).dropLast = rows.map fitRow
    ∧ (totalRowOf (rows.map fitRow)).district = "Hong Kong Total"
    ∧ (totalRowOf (rows.map fitRow)).p2025
        = (((forecastElderly rows).dropLast).map ForecastRow.p2025).sum
    ∧ (totalRowOf (rows.map fitRow)).p2026
        = (((forecastElderly rows).dropLast).map ForecastRow.p2026).sum
    ∧ (totalRowOf (rows.map fitRow)).p2027
        = (((forecastElderly rows).dropLast).map ForecastRow.p2027).sum
    ∧ (totalRowOf (rows.map fitRow)).p2028
        = (((forecastElderly rows).dropLast).map ForecastRow.p2028).sum
    ∧ (totalRowOf (rows.map fitRow)).p2029
        = (((forecastElderly rows).dropLast).map ForecastRow.p2029).sum
    ∧ (totalRowOf (rows.map fitRow)).p2030
        = (((forecastElderly rows).dropLast).map ForecastRow.p2030).sum
    ∧ (totalRowOf (rows.map fitRow)).annualGrowth
        = (((forecastElderly rows).dropLast).map ForecastRow.annualGrowth).sum
            / (((forecastElderly rows).dropLast).length : ℚ)
    ∧ (totalRowOf (rows.map fitRow)).r2
        = (((forecastElderly rows).dropLast).map ForecastRow.r2).sum
            / (((forecastElderly rows).dropLast).length : ℚ) := by
  have hdrop : (forecastElderly rows).dropLast = rows.map fitRow := by
    rw [forecastElderly, List.dropLast_concat]
  have hlast : (forecastElderly rows).getLast? = some (totalRowOf (rows.map fitRow)) := by
    rw [forecastElderly]
    exact List.getLast?_concat _
  rw [hdrop]
  exact ⟨hlast, rfl, rfl, rfl, rfl, rfl, rfl, rfl, rfl, rfl, rfl⟩

/-- C7 counterexample.  A steadily declining non-negative series produces a
negative 2025 prediction — the per-year predicted count is not always
non-negative. -/
theorem declining_series_negative_prediction :
    (fitRow (mkER "Example" 100 80 60 40 20 0)).p2025 = -20
    ∧ (fitRow (mkER "Example" 100 80 60 40 20 0)).p2025 < 0 := by
  have harith : linePred (mkER "Example" 100 80 60 40 20 0) 2025 = -20 := by
    rw [linePred, interceptOf, slopeOf, sxyOf, ybarOf]
    norm_num [mkER]
  have h : (fitRow (mkER "Example" 100 80 60 40 20 0)).p2025 = -20 := by
    show predIntOf _ 2025 = -20
    rw [predIntOf, harith, pyTrunc]
    norm_num
  exact ⟨h, by rw [h]; norm_num⟩

/-- A series with non-negative mean and non-negative centred cross sum has a
non-negative least-squares slope, hence non-negative truncated predictions at
every year past the historical mean year 2021.5. -/
lemma predIntOf_nonneg_of (r : ElderlyRow) (hybar : 0 ≤ ybarOf r) (hsxy : 0 ≤ sxyOf r)
    {y : ℚ} (hy : 2022 ≤ y) : 0 ≤ pyTrunc (linePred r y) := by
  have hslope : 0 ≤ slopeOf r := by
    rw [slopeOf]
    exact div_nonneg hsxy (by norm_num)
  have hform : linePred r y = ybarOf r + slopeOf r * (y - 4043/2) := by
    rw [linePred, interceptOf]; ring
  have hpos : 0 ≤ linePred r y := by
    rw [hform]
    have := mul_nonneg hslope (by linarith : (0:ℚ) ≤ y - 4043/2)
    linarith
  exact pyTrunc_nonneg hpos

/-- C7 (amended).  Each stored prediction is the truncation toward zero of the
least-squares line's value at the forecast year; for a nondecreasing
non-negative historical series every forecast-year prediction is a non-negative
integer, and every one of the 18 hardcoded district series (some of which dip
in individual years but all of which have non-negative mean and least-squares
slope) yields non-negative predictions for all six forecast years. -/
theorem nondecreasing_series_nonneg_predictions :
    (∀ (d : String) (g y0 y1 y2 y3 y4 y5 : ℚ),
      0 ≤ y0 → y0 ≤ y1 → y1 ≤ y2 → y2 ≤ y3 → y3 ≤ y4 → y4 ≤ y5 →
      ((fitRow ⟨d, y0, y1, y2, y3, y4, y5, g⟩).p2025
          = pyTrunc (linePred ⟨d, y0, y1, y2, y3, y4, y5, g⟩ 2025)
        ∧ 0 ≤ (fitRow ⟨d, y0, y1, y2, y3, y4, y5, g⟩).p2025)
      ∧ ((fitRow ⟨d, y0, y1, y2, y3, y4, y5, g⟩).p2026
          = pyTrunc (linePred ⟨d, y0, y1, y2, y3, y4, y5, g⟩ 2026)
        ∧ 0 ≤ (fitRow ⟨d, y0, y1, y2, y3, y4, y5, g⟩).p2026)
      ∧ ((fitRow ⟨d, y0, y1, y2, y3, y4, y5, g⟩).p2027
          = pyTrunc (linePred ⟨d, y0, y1, y2, y3, y4, y5, g⟩ 2027)
        ∧ 0 ≤ (fitRow ⟨d, y0, y1, y2, y3, y4, y5, g⟩).p2027)
      ∧ ((fitRow ⟨d, y0, y1, y2, y3, y4, y5, g⟩).p2028
          = pyTrunc (linePred ⟨d, y0, y1, y2, y3, y4, y5, g⟩ 2028)
        ∧ 0 ≤ (fitRow ⟨d, y0, y1, y2, y3, y4, y5, g⟩).p2028)
      ∧ ((fitRow ⟨d, y0, y1, y2, y3, y4, y5, g⟩).p2029
          = pyTrunc (linePred ⟨d, y0, y1, y2, y3, y4, y5, g⟩ 2029)
        ∧ 0 ≤ (fitRow ⟨d, y0, y1, y2, y3, y4, y5, g⟩).p2029)
      ∧ ((fitRow ⟨d, y0, y1, y2, y3, y4, y5, g⟩).p2030
          = pyTrunc (linePred ⟨d, y0, y1, y2, y3, y4, y5, g⟩ 2030)
        ∧ 0 ≤ (fitRow ⟨d, y0, y1, y2, y3, y4, y5, g⟩).p2030))
    ∧ (∀ r ∈ elderlyBase,
        0 ≤ (fitRow r).p2025 ∧ 0 ≤ (fitRow r).p2026 ∧ 0 ≤ (fitRow r).p2027
        ∧ 0 ≤ (fitRow r).p2028 ∧ 0 ≤ (fitRow r).p2029 ∧ 0 ≤ (fitRow r).p2030) := by
  constructor
  · intro d g y0 y1 y2 y3 y4 y5 h0 h01 h12 h23 h34 h45
    have hsxy : 0 ≤ sxyOf ⟨d, y0, y1, y2, y3, y4, y5, g⟩ := by
      rw [sxyOf]
      dsimp only
      linarith
    have hybar : 0 ≤ ybarOf ⟨d, y0, y1, y2, y3, y4, y5, g⟩ := by
      rw [ybarOf]
      have h1 : 0 ≤ y1 := le_trans h0 h01
      have h2 : 0 ≤ y2 := le_trans h1 h12
      have h3 : 0 ≤ y3 := le_trans h2 h23
      have h4 : 0 ≤ y4 := le_trans h3 h34
      have h5 : 0 ≤ y5 := le_trans h4 h45
      positivity
    exact ⟨⟨rfl, predIntOf_nonneg_of _ hybar hsxy (by norm_num)⟩,
      ⟨rfl, predIntOf_nonneg_of _ hybar hsxy (by norm_num)⟩,
      ⟨rfl, predIntOf_nonneg_of _ hybar hsxy (by norm_num)⟩,
      ⟨rfl, predIntOf_nonneg_of _ hybar hsxy (by norm_num)⟩,
      ⟨rfl, predIntOf_nonneg_of _ hybar hsxy (by norm_num)⟩,
      ⟨rfl, predIntOf_nonneg_of _ hybar hsxy (by norm_num)⟩⟩
  · intro r hr
    have hyb : 0 ≤ ybarOf r ∧ 0 ≤ sxyOf r := by
      fin_cases hr <;>
        exact ⟨by norm_num [ybarOf, mkER], by norm_num [sxyOf, mkER]⟩
    exact ⟨predIntOf_nonneg_of r hyb.1 hyb.2 (by norm_num),
      predIntOf_nonneg_of r hyb.1 hyb.2 (by norm_num),
      predIntOf_nonneg_of r hyb.1 hyb.2 (by norm_num),
      predIntOf_nonneg_of r hyb.1 hyb.2 (by norm_num),
      predIntOf_nonneg_of r hyb.1 hyb.2 (by norm_num),
      predIntOf_nonneg_of r hyb.1 hyb.2 (by norm_num)⟩

/-- Witness for C7 at the specification's own example series 100 … 150 (the
predictions are non-negative, and are 160 for 2025 and 210 for 2030) and at the
first hardcoded district series. -/
theorem nondecreasing_series_nonneg_predictions_witness :
    ((0:ℚ) ≤ 100 ∧ (100:ℚ) ≤ 110 ∧ (110:ℚ) ≤ 120 ∧ (120:ℚ) ≤ 130
      ∧ (130:ℚ) ≤ 140 ∧ (140:ℚ) ≤ 150)
    ∧ 0 ≤ (fitRow ⟨"HK", 100, 110, 120, 130, 140, 150, 0⟩).p2025
    ∧ (fitRow ⟨"HK", 100, 110, 120, 130, 140, 150, 0⟩).p2025 = 160
    ∧ (fitRow ⟨"HK", 100, 110, 120, 130, 140, 150, 0⟩).p2030 = 210
    ∧ mkER "Central and Western" 42000 43200 43600 44200 46400 48600 ∈ elderlyBase
    ∧ 0 ≤ (fitRow (mkER "Central and Western" 42000 43200 43600 44200 46400 48600)).p2030 := by
  have hmem : mkER "Central and Western" 42000 43200 43600 44200 46400 48600 ∈ elderlyBase := by
    rw [elderlyBase]
    exact List.mem_cons_self _ _
  have hbase := (nondecreasing_series_nonneg_predictions.2 _ hmem).2.2.2.2.2
  have h := nondecreasing_series_nonneg_predictions.1 "HK" 0 100 110 120 130 140 150
    (by norm_num) (by norm_num) (by norm_num) (by norm_num) (by norm_num) (by norm_num)
  have h25 : (fitRow ⟨"HK", 100, 110, 120, 130, 140, 150, 0⟩).p2025 = 160 := by
    have harith : linePred ⟨"HK", 100, 110, 120, 130, 140, 150, 0⟩ 2025 = 160 := by
      rw [linePred, interceptOf, slopeOf, sxyOf, ybarOf]
      norm_num
    show predIntOf _ 2025 = 160
    rw [predIntOf, harith, pyTrunc]
    norm_num
  have h30 : (fitRow ⟨"HK", 100, 110, 120, 130, 140, 150, 0⟩).p2030 = 210 := by
    have harith : linePred ⟨"HK", 100, 110, 120, 130, 140, 150, 0⟩ 2030 = 210 := by
      rw [linePred, interceptOf, slopeOf, sxyOf, ybarOf]
      norm_num
    show predIntOf _ 2030 = 210
    rw [predIntOf, harith, pyTrunc]
    norm_num
  exact ⟨by norm_num, h.1.2, h25, h30, hmem, hbase⟩

/-- C8 (amended).  In the double-precision arithmetic the code actually runs:
every emitted equipment row's demand exceeds 100; a (district, year, category)
row is kept exactly when its `estimated_demand` exceeds 100 (100 excluded, 101
included); and for base rate 0.12, year 2027, population 10000 the computed
`adjusted_rate` is the double 4971973988617027 / 2^55, slightly below 0.138, so
`estimated_demand` truncates to 1379, not the 1380 of exact arithmetic. -/
theorem equipment_demand_double_precision :
    (∀ (rows : List ForecastRow) (row : EqRow),
      row ∈ equipmentForecast rows → 100 < row.demand)
    ∧ (∀ (rows : List ForecastRow) (r : ForecastRow) (y : ℤ) (c : String) (b : ℤ × ℤ),
        r ∈ rows → r.district ≠ "Hong Kong Total" → y ∈ forecastYearsList →
        (c, b) ∈ adoptionRatesD →
        (eqRowOf r y c b ∈ equipmentForecast rows ↔ 100 < estDemandD (predOf r y) b y))
    ∧ adjustedRateD (flQ 3 25) 2027 = (4971973988617027, -55)
    ∧ dval (adjustedRateD (flQ 3 25) 2027) < 138/1000
    ∧ estDemandD 10000 (flQ 3 25) 2027 = 1379 := by
  have hall : ∀ (rows : List ForecastRow) (row : EqRow),
      row ∈ equipmentForecast rows → 100 < row.demand := by
    intro rows row h
    simp only [equipmentForecast, List.mem_flatMap, List.mem_filterMap] at h
    obtain ⟨y, _, r, _, p, _, hsome⟩ := h
    by_cases hc : 100 < estDemandD (predOf r y) p.2 y
    · rw [if_pos hc] at hsome
      cases hsome
      exact hc
    · rw [if_neg hc] at hsome
      exact absurd hsome (by simp)
  refine ⟨hall, ?_, by decide, ?_, by decide⟩
  · intro rows r y c b hr hd hy hcb
    constructor
    · intro hmem
      exact hall rows _ hmem
    · intro hgt
      simp only [equipmentForecast, List.mem_flatMap, List.mem_filterMap]
      refine ⟨y, hy, r, List.mem_filter.mpr ⟨hr, by simpa using hd⟩, (c, b), hcb, ?_⟩
      rw [if_pos hgt]
  · rw [show adjustedRateD (flQ 3 25) 2027 = (4971973988617027, -55) from by decide]
    rw [dval]
    norm_num
    rw [show Int.toNat 55 = 55 from rfl]
    norm_num

/-- Witness for C8 on a one-district forecast with population 10000. -/
theorem equipment_demand_double_precision_witness :
    ("Mobility - Wheelchairs", flQ 3 25) ∈ adoptionRatesD
    ∧ ((2027 : ℤ) ∈ forecastYearsList)
    ∧ (eqRowOf ⟨"Kwun Tong", 10000, 10000, 10000, 10000, 10000, 10000, 0, 0⟩ 2027
          "Mobility - Wheelchairs" (flQ 3 25)
        ∈ equipmentForecast [⟨"Kwun Tong", 10000, 10000, 10000, 10000, 10000, 10000, 0, 0⟩]
      ↔ 100 < estDemandD
          (predOf ⟨"Kwun Tong", 10000, 10000, 10000, 10000, 10000, 10000, 0, 0⟩ 2027)
          (flQ 3 25) 2027) := by
  have hcb : ("Mobility - Wheelchairs", flQ 3 25) ∈ adoptionRatesD := by
    rw [adoptionRatesD]
    exact List.mem_cons_self _ _
  refine ⟨hcb, by decide, ?_⟩
  exact equipment_demand_double_precision.2.1
    [⟨"Kwun Tong", 10000, 10000, 10000, 10000, 10000, 10000, 0, 0⟩]
    ⟨"Kwun Tong", 10000, 10000, 10000, 10000, 10000, 10000, 0, 0⟩ 2027
    "Mobility - Wheelchairs" (flQ 3 25) (by simp) (by decide) (by decide) hcb

/-- C8 counterexample.  At base rate 0.12, year 2027, population 10000 the code
computes 1379, not the 1380 the claim states: `0.12 * 1.15` rounds to a double
slightly below 0.138 and `int()` truncates `10000 * adjusted_rate` downward. -/
theorem equipment_demand_example_is_1379 :
    estDemandD 10000 (flQ 3 25) 2027 = 1379
    ∧ estDemandD 10000 (flQ 3 25) 2027 ≠ 1380 :=
  ⟨by decide, by decide⟩

/-- C9 (amended).  Every pandemic-scenario row's `Pandemic_Demand` is
`int(normal × multiplier)` and its `Difference` is `int(normal × (multiplier −
1))`, both in the double arithmetic of the source, with the multiplier drawn
from the fixed per-category table (default 1.0). -/
theorem pandemic_rows_double_precision (base : List EqRow) (p : PanRow)
    (hmem : p ∈ simulatePandemic base) :
    p.multiplier = multOf p.category
    ∧ p.scenario = dtrunc (dmul (dofInt p.normal) (multOf p.category))
    ∧ p.diff = dtrunc (dmul (dofInt p.normal) (dsub (multOf p.category) (dofInt 1))) := by
  simp only [simulatePandemic, List.mem_map] at hmem
  obtain ⟨r, _, rfl⟩ := hmem
  exact ⟨rfl, rfl, rfl⟩

/-- Witness for C9 on a Respiratory row with normal demand 200: scenario 700,
difference 500. -/
theorem pandemic_rows_double_precision_witness :
    (⟨"X", "Respiratory", 200, 700, flQ 7 2, 500⟩ : PanRow)
      ∈ simulatePandemic [⟨"X", 2025, "Respiratory", 2000, flQ 3 50, 200⟩]
    ∧ (⟨"X", "Respiratory", 200, 700, flQ 7 2, 500⟩ : PanRow).scenario
      = dtrunc (dmul (dofInt (⟨"X", "Respiratory", 200, 700, flQ 7 2, 500⟩ : PanRow).normal)
          (multOf "Respiratory")) := by
  have hm : (⟨"X", "Respiratory", 200, 700, flQ 7 2, 500⟩ : PanRow)
      ∈ simulatePandemic [⟨"X", 2025, "Respiratory", 2000, flQ 3 50, 200⟩] := by decide
  have h := pandemic_rows_double_precision _ _ hm
  exact ⟨hm, h.2.1⟩

/-- C9 counterexample.  A kept Wheelchairs row with normal demand 101 (reached at
population 806 in 2025) has scenario demand 70 and difference −30, while
`scenario − normal` is −31: the two truncations land on different sides of the
integers, so `difference` is not `scenario_demand − normal_demand`. -/
theorem pandemic_difference_not_scenario_minus_normal :
    (simulatePandemic [⟨"Kwun Tong", 2025, "Mobility - Wheelchairs", 806,
        adjustedRateD (flQ 3 25) 2025, estDemandD 806 (flQ 3 25) 2025⟩]).map
      (fun p => (p.normal, p.scenario, p.diff)) = [(101, 70, -30)]
    ∧ (70 : ℤ) - 101 = -31
    ∧ (-30 : ℤ) ≠ (70 : ℤ) - 101 :=
  ⟨by decide, by decide, by decide⟩
